import Mathlib

/-!
# CBA_A3: `addons/main/script_macros_common.hpp` and `addons/hashes/CfgFunctions.hpp`

The header is a library of preprocessor definitions whose expansions are fragments of SQF,
the scripting language of the host engine.  Each `#define` of the header that the development
needs is embedded as a Lean function from its arguments to the fragment it expands to; the
conditional blocks (`#ifdef` ... `#else` ... `#endif`) become `if` over the set of debug
symbols defined at that point of the header.  Fragments are given a small operational
reading (values, variables, `private`, `select`, `if ... then`, `call`) so that statements
about what an expansion does can be stated and proved, not only what it looks like.

The configuration manifest is embedded as the data it declares.
-/

namespace CBA

/-! ## SQF values and interpreter state -/

/-- SQF values, one constructor per data type of the engine that the header checks for,
and `nameSpace` for a type the header has no check for.  Scalars carry an integer: no
statement here depends on arithmetic. -/
inductive Value where
  | array (xs : List Value)
  | bool (b : Bool)
  | code
  | config
  | control
  | display
  | group
  | object
  | scalar (n : Int)
  | script
  | side
  | string (s : String)
  | text
  | location
  | nameSpace

/-- Engine command `typeName`: the upper-case tag of a value's data type. -/
def typeName : Value → String
  | .array _ => "ARRAY"
  | .bool _ => "BOOL"
  | .code => "CODE"
  | .config => "CONFIG"
  | .control => "CONTROL"
  | .display => "DISPLAY"
  | .group => "GROUP"
  | .object => "OBJECT"
  | .scalar _ => "SCALAR"
  | .script => "SCRIPT"
  | .side => "SIDE"
  | .string _ => "STRING"
  | .text => "TEXT"
  | .location => "LOCATION"
  | .nameSpace => "NAMESPACE"

/-- Engine operator `==` on strings compares without regard to case. -/
def sqfStringEq (s t : String) : Bool :=
  s.data.map Char.toUpper == t.data.map Char.toUpper

/-- A function call the script made: the function's name and the argument it was given.
The functions called by the header (`CBA_fnc_log`, `CBA_fnc_error`) live in other files;
a call is recorded, its body is not run. -/
structure CallEvent where
  fn : String
  arg : Value

/-- Interpreter state of one script scope: the variables, the names declared `private` so
far (in order of declaration) and the calls made so far (in order). -/
structure State where
  vars : String → Option Value
  privates : List String
  calls : List CallEvent

/-- Assignment `name = v`. -/
def State.assign (σ : State) (name : String) (v : Value) : State :=
  { σ with vars := fun x => if x = name then some v else σ.vars x }

/-- Declaring names `private`. -/
def State.declarePrivate (σ : State) (names : List String) : State :=
  { σ with privates := σ.privates ++ names }

/-- Recording a call. -/
def State.record (σ : State) (fn : String) (arg : Value) : State :=
  { σ with calls := σ.calls ++ [⟨fn, arg⟩] }

/-! ## SQF fragments -/

/-- Expressions occurring in the expansions.  An array literal `[a, b, c]` is
`arrCons a (arrCons b (arrCons c arrNil))`. -/
inductive Expr where
  | lit (v : Value)
  | var (name : String)
  | arrNil
  | arrCons (head tail : Expr)
  | select (array : Expr) (index : Nat)
  | not (e : Expr)
  | add (a b : Expr)
  | eq (a b : Expr)
  | typeName (e : Expr)
  | str (e : Expr)
  | format (e : Expr)

/-- Array literal `[e1, ..., en]`. -/
def arr (es : List Expr) : Expr := es.foldr Expr.arrCons Expr.arrNil

/-- Statements occurring in the expansions.  `skip` is the empty expansion (and the empty
statement between two `;`), `seq a b` is `a; b`, `call args fn` is `args call fn` with or
without a closing `;`, `ifThen c body` is `if (c) then \x7b body \x7d`. -/
inductive Stmt where
  | skip
  | seq (a b : Stmt)
  | assign (name : String) (e : Expr)
  | privateDecl (e : Expr)
  | call (args : Expr) (fn : String)
  | ifThen (cond : Expr) (body : Stmt)

/-- An argument of a definition: the text written at the place of use and the expression
that text denotes.  The text matters where the body puts the parameter inside single
quotes or applies `#` to it. -/
structure Arg where
  text : String
  expr : Expr

/-- Engine commands whose result the header only passes on: `str` and `format`. -/
structure Host where
  str : Value → String
  format : String → List Value → String

/-- Evaluation of an expression; `none` is a script error (undefined variable, wrong type,
`select` outside the array). -/
def eval (h : Host) (σ : State) : Expr → Option Value
  | .lit v => some v
  | .var x => σ.vars x
  | .arrNil => some (.array [])
  | .arrCons a b =>
    match eval h σ a, eval h σ b with
    | some v, some (.array vs) => some (.array (v :: vs))
    | _, _ => none
  | .select a i =>
    match eval h σ a with
    | some (.array xs) => xs[i]?
    | _ => none
  | .not e =>
    match eval h σ e with
    | some (.bool b) => some (.bool (!b))
    | _ => none
  | .add a b =>
    match eval h σ a, eval h σ b with
    | some (.string s), some (.string t) => some (.string (s ++ t))
    | some (.scalar m), some (.scalar n) => some (.scalar (m + n))
    | some (.array xs), some (.array ys) => some (.array (xs ++ ys))
    | _, _ => none
  | .eq a b =>
    match eval h σ a, eval h σ b with
    | some (.string s), some (.string t) => some (.bool (sqfStringEq s t))
    | some (.scalar m), some (.scalar n) => some (.bool (m == n))
    | _, _ => none
  | .typeName e => (eval h σ e).map fun v => .string (CBA.typeName v)
  | .str e => (eval h σ e).map fun v => .string (h.str v)
  | .format e =>
    match eval h σ e with
    | some (.array (.string f :: args)) => some (.string (h.format f args))
    | _ => none

/-- The names a `private` command declares: its operand is one name or an array of names. -/
def privateNames : Value → Option (List String)
  | .string s => some [s]
  | .array xs => xs.mapM fun v => match v with
    | .string s => some s
    | _ => none
  | _ => none

/-- Execution of a statement; `none` is a script error. -/
def exec (h : Host) : Stmt → State → Option State
  | .skip, σ => some σ
  | .seq a b, σ => (exec h a σ).bind (exec h b)
  | .assign x e, σ => (eval h σ e).map (σ.assign x)
  | .privateDecl e, σ => ((eval h σ e).bind privateNames).map σ.declarePrivate
  | .call args fn, σ => (eval h σ args).map (σ.record fn)
  | .ifThen c body, σ =>
    match eval h σ c with
    | some (.bool true) => exec h body σ
    | some (.bool false) => some σ
    | _ => none

/-- Variables an expression reads. -/
def Expr.vars : Expr → List String
  | .lit _ => []
  | .var x => [x]
  | .arrNil => []
  | .arrCons a b => a.vars ++ b.vars
  | .select a _ => a.vars
  | .not e => e.vars
  | .add a b => a.vars ++ b.vars
  | .eq a b => a.vars ++ b.vars
  | .typeName e => e.vars
  | .str e => e.vars
  | .format e => e.vars

/-- The operands of the `private` commands of a statement outside any `if`, in textual
order. -/
def Stmt.privateDecls : Stmt → List Expr
  | .seq a b => a.privateDecls ++ b.privateDecls
  | .privateDecl e => [e]
  | _ => []

/-- Whether a fragment is a call of the function `fn`. -/
def Stmt.isCallOf (fn : String) : Stmt → Bool
  | .call _ f => f == fn
  | _ => false

/-! ## The header: debug levels (lines 103-117) -/

/-- Which of the three debug symbols are defined at a point of preprocessing. -/
structure DebugDefs where
  DEBUG_MODE_FULL : Bool
  DEBUG_MODE_NORMAL : Bool
  DEBUG_MODE_MINIMAL : Bool
  deriving DecidableEq

/-- Lines 104-106: `#ifdef DEBUG_MODE_FULL` / `#define DEBUG_MODE_NORMAL`. -/
def fullEnablesNormal (d : DebugDefs) : DebugDefs :=
  if d.DEBUG_MODE_FULL then { d with DEBUG_MODE_NORMAL := true } else d

/-- Lines 109-111: `#ifdef DEBUG_MODE_NORMAL` / `#define DEBUG_MODE_MINIMAL`. -/
def normalEnablesMinimal (d : DebugDefs) : DebugDefs :=
  if d.DEBUG_MODE_NORMAL then { d with DEBUG_MODE_MINIMAL := true } else d

/-- Lines 114-117: `#ifndef DEBUG_MODE_MINIMAL` / `#define DEBUG_MODE_NORMAL` /
`#define DEBUG_MODE_MINIMAL`. -/
def defaultToNormal (d : DebugDefs) : DebugDefs :=
  if !d.DEBUG_MODE_MINIMAL then
    { d with DEBUG_MODE_NORMAL := true, DEBUG_MODE_MINIMAL := true }
  else d

/-- The three blocks in the order of the header. -/
def resolveDebugMode (d : DebugDefs) : DebugDefs :=
  defaultToNormal (normalEnablesMinimal (fullEnablesNormal d))

/-- Debug levels, lowest to highest. -/
inductive DebugLevel where
  | MINIMAL
  | NORMAL
  | FULL
  deriving DecidableEq

/-- The highest level among the symbols defined before the header is included, `NORMAL`
when none is (the reading of the header's documentation, lines 62-63). -/
def highestLevel (d : DebugDefs) : DebugLevel :=
  if d.DEBUG_MODE_FULL then .FULL
  else if d.DEBUG_MODE_NORMAL then .NORMAL
  else if d.DEBUG_MODE_MINIMAL then .MINIMAL
  else .NORMAL

/-! ## The header: logging (lines 119-227) -/

/-- Where an expansion happens: whether `THIS_FILE` is defined and to what, and the values
of the built-in `__FILE__` and `__LINE__` there. -/
structure Site where
  THIS_FILE : Option String
  FILE : String
  LINE : Nat

/-- Lines 119-123: `'THIS_FILE'` when `THIS_FILE` is defined, else `__FILE__`. -/
def THIS_FILE_ (s : Site) : Expr :=
  match s.THIS_FILE with
  | some f => .lit (.string f)
  | none => .lit (.string s.FILE)

/-- The built-in `__LINE__`. -/
def LINE_ (s : Site) : Expr := .lit (.scalar s.LINE)

/-- Lines 131-135: the call when `DEBUG_MODE_NORMAL` is defined at this point, else
nothing (the body is a comment). -/
def LOG (d : DebugDefs) (s : Site) (MESSAGE : Arg) : Stmt :=
  if d.DEBUG_MODE_NORMAL then
    .call (arr [THIS_FILE_ s, LINE_ s, MESSAGE.expr]) "CBA_fnc_log"
  else .skip

/-- Lines 143-147. -/
def WARNING (d : DebugDefs) (s : Site) (MESSAGE : Arg) : Stmt :=
  if d.DEBUG_MODE_NORMAL then
    .call (arr [THIS_FILE_ s, LINE_ s, .add (.lit (.string "WARNING: ")) MESSAGE.expr])
      "CBA_fnc_log"
  else .skip

/-- Lines 157-158; the expansion closes with `;`. -/
def ERROR (s : Site) (MESSAGE : Arg) : Stmt :=
  .call (arr [THIS_FILE_ s, LINE_ s, .lit (.string "ERROR"), MESSAGE.expr]) "CBA_fnc_error"

/-- Lines 168-169; the expansion closes with `;`. -/
def ERROR_WITH_TITLE (s : Site) (TITLE MESSAGE : Arg) : Stmt :=
  .call (arr [THIS_FILE_ s, LINE_ s, TITLE.expr, MESSAGE.expr]) "CBA_fnc_error"

/-- The body shared by the enabled `TRACE_n`: the format string, the message and the
`str` of every traced expression, logged through `CBA_fnc_log`. -/
def traceCall (s : Site) (fmt : String) (MESSAGE : Arg) (traced : List Arg) : Stmt :=
  .call (arr [THIS_FILE_ s, LINE_ s,
    .format (arr (.lit (.string fmt) :: MESSAGE.expr :: traced.map fun a => .str a.expr))])
    "CBA_fnc_log"

/-- Lines 192-193 and 218. -/
def TRACE_1 (d : DebugDefs) (s : Site) (MESSAGE A : Arg) : Stmt :=
  if d.DEBUG_MODE_FULL then
    traceCall s ("%1: " ++ A.text ++ "=%2") MESSAGE [A]
  else .skip

/-- Lines 195-196 and 219. -/
def TRACE_2 (d : DebugDefs) (s : Site) (MESSAGE A B : Arg) : Stmt :=
  if d.DEBUG_MODE_FULL then
    traceCall s ("%1: " ++ A.text ++ "=%2, " ++ B.text ++ "=%3") MESSAGE [A, B]
  else .skip

/-- Lines 198-199 and 220. -/
def TRACE_3 (d : DebugDefs) (s : Site) (MESSAGE A B C : Arg) : Stmt :=
  if d.DEBUG_MODE_FULL then
    traceCall s ("%1: " ++ A.text ++ "=%2, " ++ B.text ++ "=%3, " ++ C.text ++ "=%4")
      MESSAGE [A, B, C]
  else .skip

/-- Lines 201-202 and 221. -/
def TRACE_4 (d : DebugDefs) (s : Site) (MESSAGE A B C D : Arg) : Stmt :=
  if d.DEBUG_MODE_FULL then
    traceCall s ("%1: " ++ A.text ++ "=%2, " ++ B.text ++ "=%3, " ++ C.text ++ "=%4, "
      ++ D.text ++ "=%5") MESSAGE [A, B, C, D]
  else .skip

/-- Lines 204-205 and 222. -/
def TRACE_5 (d : DebugDefs) (s : Site) (MESSAGE A B C D E : Arg) : Stmt :=
  if d.DEBUG_MODE_FULL then
    traceCall s ("%1: " ++ A.text ++ "=%2, " ++ B.text ++ "=%3, " ++ C.text ++ "=%4, "
      ++ D.text ++ "=%5, " ++ E.text ++ "=%6") MESSAGE [A, B, C, D, E]
  else .skip

/-- Lines 207-208 and 223. -/
def TRACE_6 (d : DebugDefs) (s : Site) (MESSAGE A B C D E F : Arg) : Stmt :=
  if d.DEBUG_MODE_FULL then
    traceCall s ("%1: " ++ A.text ++ "=%2, " ++ B.text ++ "=%3, " ++ C.text ++ "=%4, "
      ++ D.text ++ "=%5, " ++ E.text ++ "=%6, " ++ F.text ++ "=%7") MESSAGE [A, B, C, D, E, F]
  else .skip

/-- Lines 210-211 and 224. -/
def TRACE_7 (d : DebugDefs) (s : Site) (MESSAGE A B C D E F G : Arg) : Stmt :=
  if d.DEBUG_MODE_FULL then
    traceCall s ("%1: " ++ A.text ++ "=%2, " ++ B.text ++ "=%3, " ++ C.text ++ "=%4, "
      ++ D.text ++ "=%5, " ++ E.text ++ "=%6, " ++ F.text ++ "=%7, " ++ G.text ++ "=%8")
      MESSAGE [A, B, C, D, E, F, G]
  else .skip

/-- Lines 213-214 and 225. -/
def TRACE_8 (d : DebugDefs) (s : Site) (MESSAGE A B C D E F G H : Arg) : Stmt :=
  if d.DEBUG_MODE_FULL then
    traceCall s ("%1: " ++ A.text ++ "=%2, " ++ B.text ++ "=%3, " ++ C.text ++ "=%4, "
      ++ D.text ++ "=%5, " ++ E.text ++ "=%6, " ++ F.text ++ "=%7, " ++ G.text ++ "=%8, "
      ++ H.text ++ "=%9") MESSAGE [A, B, C, D, E, F, G, H]
  else .skip

/-- A fragment that is a call of `fn` exactly when `active` holds and is empty otherwise. -/
def ExpandsWhen (fn : String) (code : Stmt) (active : Prop) : Prop :=
  (code.isCallOf fn = true ↔ active) ∧ (¬ active → code = .skip)

/-! ## The header: type checks (lines 396-414) -/

/-- Line 396: `((typeName (VAR)) == "ARRAY")`. -/
def IS_ARRAY (VAR : Arg) : Expr := .eq (.typeName VAR.expr) (.lit (.string "ARRAY"))

/-- Line 397: `((typeName (VAR)) == "BOOL")`. -/
def IS_BOOL (VAR : Arg) : Expr := .eq (.typeName VAR.expr) (.lit (.string "BOOL"))

/-- Line 398: `((typeName (VAR)) == "CODE")`. -/
def IS_CODE (VAR : Arg) : Expr := .eq (.typeName VAR.expr) (.lit (.string "CODE"))

/-- Line 399: `((typeName (VAR)) == "CONFIG")`. -/
def IS_CONFIG (VAR : Arg) : Expr := .eq (.typeName VAR.expr) (.lit (.string "CONFIG"))

/-- Line 400: `((typeName (VAR)) == "CONTROL")`. -/
def IS_CONTROL (VAR : Arg) : Expr := .eq (.typeName VAR.expr) (.lit (.string "CONTROL"))

/-- Line 401: `((typeName (VAR)) == "DISPLAY")`. -/
def IS_DISPLAY (VAR : Arg) : Expr := .eq (.typeName VAR.expr) (.lit (.string "DISPLAY"))

/-- Line 402: `((typeName (VAR)) == "GROUP")`. -/
def IS_GROUP (VAR : Arg) : Expr := .eq (.typeName VAR.expr) (.lit (.string "GROUP"))

/-- Line 403: `((typeName (VAR)) == "OBJECT")`. -/
def IS_OBJECT (VAR : Arg) : Expr := .eq (.typeName VAR.expr) (.lit (.string "OBJECT"))

/-- Line 404: `((typeName (VAR)) == "SCALAR")`. -/
def IS_SCALAR (VAR : Arg) : Expr := .eq (.typeName VAR.expr) (.lit (.string "SCALAR"))

/-- Line 405: `((typeName (VAR)) == "SCRIPT")`. -/
def IS_SCRIPT (VAR : Arg) : Expr := .eq (.typeName VAR.expr) (.lit (.string "SCRIPT"))

/-- Line 406: `((typeName (VAR)) == "SIDE")`. -/
def IS_SIDE (VAR : Arg) : Expr := .eq (.typeName VAR.expr) (.lit (.string "SIDE"))

/-- Line 407: `((typeName (VAR)) == "STRING")`. -/
def IS_STRING (VAR : Arg) : Expr := .eq (.typeName VAR.expr) (.lit (.string "STRING"))

/-- Line 408: `((typeName (VAR)) == "TEXT")`. -/
def IS_TEXT (VAR : Arg) : Expr := .eq (.typeName VAR.expr) (.lit (.string "TEXT"))

/-- Line 409: `((typeName (VAR)) == "LOCATION")`. -/
def IS_LOCATION (VAR : Arg) : Expr := .eq (.typeName VAR.expr) (.lit (.string "LOCATION"))

/-- Line 411. -/
def IS_BOOLEAN (VAR : Arg) : Expr := IS_BOOL VAR

/-- Line 412. -/
def IS_FUNCTION (VAR : Arg) : Expr := IS_CODE VAR

/-- Line 414. -/
def IS_NUMBER (VAR : Arg) : Expr := IS_SCALAR VAR

/-- The fourteen base checks, each with the tag that its name carries after `IS_`. -/
def baseChecks : List (String × (Arg → Expr)) :=
  [("ARRAY", IS_ARRAY),
   ("BOOL", IS_BOOL),
   ("CODE", IS_CODE),
   ("CONFIG", IS_CONFIG),
   ("CONTROL", IS_CONTROL),
   ("DISPLAY", IS_DISPLAY),
   ("GROUP", IS_GROUP),
   ("OBJECT", IS_OBJECT),
   ("SCALAR", IS_SCALAR),
   ("SCRIPT", IS_SCRIPT),
   ("SIDE", IS_SIDE),
   ("STRING", IS_STRING),
   ("TEXT", IS_TEXT),
   ("LOCATION", IS_LOCATION)]

/-- Whether an evaluation gave `true`. -/
def holds : Option Value → Bool
  | some (.bool true) => true
  | _ => false

/-! ## The header: splitting arrays (lines 443-462)

A parameter that is the target of an assignment is given by its text, the variable's name. -/

/-- The statement `V = (ARRAY) select i`. -/
def selectInto (ARRAY : Arg) (V : String) (i : Nat) : Stmt :=
  .assign V (.select ARRAY.expr i)

/-- The flat form `V1 = (ARRAY) select i; V2 = (ARRAY) select (i+1); ...`, written out for
any list of variables. -/
def flatExplode (ARRAY : Arg) : List String → Nat → Stmt
  | [], _ => .skip
  | [V], i => selectInto ARRAY V i
  | V :: W :: Vs, i => .seq (selectInto ARRAY V i) (flatExplode ARRAY (W :: Vs) (i + 1))

/-! ## The header: function parameters (lines 494-516) -/

/-- The argument `_this`. -/
def thisArg : Arg := ⟨"_this", .var "_this"⟩

/-- Line 549: `ERROR_WITH_TITLE("Assertion failed!",MESSAGE)`. -/
def ASSERTION_ERROR (s : Site) (MESSAGE : Arg) : Stmt :=
  ERROR_WITH_TITLE s ⟨"\x22Assertion failed!\x22", .lit (.string "Assertion failed!")⟩ MESSAGE

/-- Lines 560-564.  The body of the `then` block is the expansion of `ASSERTION_ERROR`
followed by `;`, an empty statement. -/
def ASSERT_TRUE (s : Site) (CONDITION MESSAGE : Arg) : Stmt :=
  .ifThen (.not CONDITION.expr)
    (.seq
      (ASSERTION_ERROR s
        ⟨"\x27Assertion (" ++ CONDITION.text ++ ") failed!\\n\\n\x27 + (" ++ MESSAGE.text ++ ")",
          .add (.lit (.string ("Assertion (" ++ CONDITION.text ++ ") failed!\\n\\n")))
            MESSAGE.expr⟩)
      .skip)

/-- Lines 575-579. -/
def ASSERT_FALSE (s : Site) (CONDITION MESSAGE : Arg) : Stmt :=
  .ifThen CONDITION.expr
    (ASSERTION_ERROR s
      ⟨"\x27Assertion (not (" ++ CONDITION.text ++ ")) failed!\\n\\n\x27 + (" ++ MESSAGE.text
          ++ ")",
        .add (.lit (.string ("Assertion (not (" ++ CONDITION.text ++ ")) failed!\\n\\n")))
          MESSAGE.expr⟩)

/-- The call event of an assertion error: `CBA_fnc_error` given file, line, the title
`Assertion failed!` and a text. -/
def assertionEvent (file : Value) (line : Value) (text : String) : CallEvent :=
  ⟨"CBA_fnc_error", .array [file, line, .string "Assertion failed!", .string text]⟩

/-- Going from `σ` to `τ` raised exactly one assertion error whose text ends with `m`, and
changed nothing else. -/
def RaisedAssertion (σ τ : State) (m : String) : Prop :=
  ∃ file line text, m.data <:+ text.data ∧
    τ = { σ with calls := σ.calls ++ [assertionEvent file line text] }

/-! ## The manifest `addons/hashes/CfgFunctions.hpp` -/

/-- A config class with its entries `key = "value";` in order. -/
structure ConfigClass where
  name : String
  entries : List (String × String)

/-- A category of `CfgFunctions`: a class holding function classes. -/
structure CfgCategory where
  name : String
  classes : List ConfigClass

/-- A tag of `CfgFunctions`: a class holding categories. -/
structure CfgTag where
  name : String
  categories : List CfgCategory

/-- Lines 6-62 of the manifest. -/
def CfgFunctions : List CfgTag :=
  [⟨"CBA", [⟨"Hashes", [
    ⟨"hashCreate", [("description", "Check if a Hash has a value defined for a key."),
      ("file", "\\x\\cba_a3\\addons\\hashes\\fnc_hashCreate.sqf")]⟩,
    ⟨"hashEachPair", [("description", "Iterate through all keys and values in a Hash."),
      ("file", "\\x\\cba_a3\\addons\\hashes\\fnc_hashEachPair.sqf")]⟩,
    ⟨"hashGet", [("description", "Gets a value for a given key from a Hash."),
      ("file", "\\x\\cba_a3\\addons\\hashes\\fnc_hashGet.sqf")]⟩,
    ⟨"hashHasKey", [("description", "Check if a Hash has a value defined for a key."),
      ("file", "\\x\\cba_a3\\addons\\hashes\\fnc_hashHasKey.sqf")]⟩,
    ⟨"hashRem", [("description", "Removes given key from given Hash."),
      ("file", "\\x\\cba_a3\\addons\\hashes\\fnc_hashRem.sqf")]⟩,
    ⟨"hashSet", [("description", "Sets a value for a given key in a Hash."),
      ("file", "\\x\\cba_a3\\addons\\hashes\\fnc_hashSet.sqf")]⟩,
    ⟨"isHash", [("description", "Check if a value is a Hash data structure."),
      ("file", "\\x\\cba_a3\\addons\\hashes\\fnc_isHash.sqf")]⟩,
    ⟨"testHash", [("description", "Internal Self Check. Check the RPT file for results."),
      ("file", "\\x\\cba_a3\\addons\\hashes\\test.sqf")]⟩]⟩]⟩]

/-- The function classes registered under `tag`/`category`. -/
def registered (tag category : String) : List ConfigClass :=
  ((CfgFunctions.filter fun t => t.name == tag).flatMap fun t =>
    (t.categories.filter fun c => c.name == category).flatMap fun c => c.classes)

/-- The values of the `file` entries of a class. -/
def ConfigClass.files (c : ConfigClass) : List String :=
  (c.entries.filter fun e => e.1 == "file").map fun e => e.2

/-- The file a function name is mapped to: the first `file` entry of the first class of
that name. -/
def fileOf (classes : List ConfigClass) (name : String) : Option String :=
  ((classes.filter fun c => c.name == name).flatMap ConfigClass.files).head?

/-- The directory of the hashes addon. -/
def hashesDir : String := "\\x\\cba_a3\\addons\\hashes\\"

/-- Whether `path` names a file directly in the directory `dir` (which ends in a backslash) with
the extension `ext`. -/
def isFileIn (dir ext path : String) : Bool :=
  dir.data.isPrefixOf path.data && ext.data.isSuffixOf path.data
    && !(path.data.drop dir.data.length).contains (Char.ofNat 92)

/-- A host for concrete runs: `str` gives the type tag, `format` the bare format string. -/
def plainHost : Host := ⟨typeName, fun f _ => f⟩

/-- A state for concrete runs: `_this` is `[10, 20, 30, 40, 50, 60, 70, 80]`, `_flag` is
`true`, `_msg` is `"boom"`, nothing else is defined. -/
def sampleState : State where
  vars := fun x =>
    if x = "_this" then
      some (.array [.scalar 10, .scalar 20, .scalar 30, .scalar 40, .scalar 50, .scalar 60,
        .scalar 70, .scalar 80])
    else if x = "_flag" then some (.bool true)
    else if x = "_msg" then some (.string "boom")
    else none
  privates := []
  calls := []

/-- A site for concrete runs. -/
def sampleSite : Site := ⟨none, "fnc_test.sqf", 12⟩

/-! ## Debug levels and logging -/

/-- C1: for every subset of the three debug symbols defined before the header is included,
with the level taken as the highest symbol defined (NORMAL when none is): `ERROR` and
`ERROR_WITH_TITLE` expand to a call of `CBA_fnc_error` whatever the level; `LOG` and
`WARNING` expand to a call of `CBA_fnc_log` exactly when the level is NORMAL or FULL and to
nothing otherwise; each of `TRACE_1` .. `TRACE_8` expands to a call of `CBA_fnc_log`
exactly when the level is FULL and to nothing otherwise. -/
theorem logging_decided_by_highest_level (d : DebugDefs) (s : Site)
    (TITLE MESSAGE A B C D E F G H : Arg) :
    (ERROR s MESSAGE).isCallOf "CBA_fnc_error" = true ∧
    (ERROR_WITH_TITLE s TITLE MESSAGE).isCallOf "CBA_fnc_error" = true ∧
    ExpandsWhen "CBA_fnc_log" (LOG (resolveDebugMode d) s MESSAGE)
      (highestLevel d = .NORMAL ∨ highestLevel d = .FULL) ∧
    ExpandsWhen "CBA_fnc_log" (WARNING (resolveDebugMode d) s MESSAGE)
      (highestLevel d = .NORMAL ∨ highestLevel d = .FULL) ∧
    ExpandsWhen "CBA_fnc_log" (TRACE_1 (resolveDebugMode d) s MESSAGE A)
      (highestLevel d = .FULL) ∧
    ExpandsWhen "CBA_fnc_log" (TRACE_2 (resolveDebugMode d) s MESSAGE A B)
      (highestLevel d = .FULL) ∧
    ExpandsWhen "CBA_fnc_log" (TRACE_3 (resolveDebugMode d) s MESSAGE A B C)
      (highestLevel d = .FULL) ∧
    ExpandsWhen "CBA_fnc_log" (TRACE_4 (resolveDebugMode d) s MESSAGE A B C D)
      (highestLevel d = .FULL) ∧
    ExpandsWhen "CBA_fnc_log" (TRACE_5 (resolveDebugMode d) s MESSAGE A B C D E)
      (highestLevel d = .FULL) ∧
    ExpandsWhen "CBA_fnc_log" (TRACE_6 (resolveDebugMode d) s MESSAGE A B C D E F)
      (highestLevel d = .FULL) ∧
    ExpandsWhen "CBA_fnc_log" (TRACE_7 (resolveDebugMode d) s MESSAGE A B C D E F G)
      (highestLevel d = .FULL) ∧
    ExpandsWhen "CBA_fnc_log" (TRACE_8 (resolveDebugMode d) s MESSAGE A B C D E F G H)
      (highestLevel d = .FULL) := by
  rcases d with ⟨_ | _, _ | _, _ | _⟩ <;>
    simp [ExpandsWhen, resolveDebugMode, defaultToNormal, normalEnablesMinimal,
      fullEnablesNormal, highestLevel, ERROR, ERROR_WITH_TITLE, LOG, WARNING, traceCall,
      TRACE_1, TRACE_2, TRACE_3, TRACE_4, TRACE_5, TRACE_6, TRACE_7, TRACE_8, Stmt.isCallOf]

/-- C2: with none of the three debug symbols defined before the header is included, after
the resolution block `DEBUG_MODE_NORMAL` and `DEBUG_MODE_MINIMAL` are defined and
`DEBUG_MODE_FULL` is not; `LOG` and `WARNING` expand to a call of `CBA_fnc_log` and every
`TRACE_n` expands to nothing. -/
theorem default_is_normal (s : Site) (MESSAGE A B C D E F G H : Arg) :
    (resolveDebugMode ⟨false, false, false⟩).DEBUG_MODE_NORMAL = true ∧
    (resolveDebugMode ⟨false, false, false⟩).DEBUG_MODE_MINIMAL = true ∧
    (resolveDebugMode ⟨false, false, false⟩).DEBUG_MODE_FULL = false ∧
    (LOG (resolveDebugMode ⟨false, false, false⟩) s MESSAGE).isCallOf "CBA_fnc_log" = true ∧
    (WARNING (resolveDebugMode ⟨false, false, false⟩) s MESSAGE).isCallOf "CBA_fnc_log"
      = true ∧
    TRACE_1 (resolveDebugMode ⟨false, false, false⟩) s MESSAGE A = .skip ∧
    TRACE_2 (resolveDebugMode ⟨false, false, false⟩) s MESSAGE A B = .skip ∧
    TRACE_3 (resolveDebugMode ⟨false, false, false⟩) s MESSAGE A B C = .skip ∧
    TRACE_4 (resolveDebugMode ⟨false, false, false⟩) s MESSAGE A B C D = .skip ∧
    TRACE_5 (resolveDebugMode ⟨false, false, false⟩) s MESSAGE A B C D E = .skip ∧
    TRACE_6 (resolveDebugMode ⟨false, false, false⟩) s MESSAGE A B C D E F = .skip ∧
    TRACE_7 (resolveDebugMode ⟨false, false, false⟩) s MESSAGE A B C D E F G = .skip ∧
    TRACE_8 (resolveDebugMode ⟨false, false, false⟩) s MESSAGE A B C D E F G H = .skip := by
  simp [resolveDebugMode, defaultToNormal, normalEnablesMinimal, fullEnablesNormal, LOG,
    WARNING, TRACE_1, TRACE_2, TRACE_3, TRACE_4, TRACE_5, TRACE_6, TRACE_7, TRACE_8,
    Stmt.isCallOf]

/-! ## Type checks -/

/-- A check `(typeName (e)) == tag` evaluates to the comparison of the tag of the value of
`e` with `tag`. -/
theorem eval_typeCheck (h : Host) (σ : State) (e : Expr) (v : Value) (tag : String)
    (hv : eval h σ e = some v) :
    eval h σ (.eq (.typeName e) (.lit (.string tag)))
      = some (.bool (sqfStringEq (typeName v) tag)) := by
  simp [eval, hv]

/-- Every tag that `typeName` gives is one of fifteen. -/
theorem typeName_mem (v : Value) :
    typeName v ∈ ["ARRAY", "BOOL", "CODE", "CONFIG", "CONTROL", "DISPLAY", "GROUP", "OBJECT", "SCALAR", "SCRIPT", "SIDE", "STRING", "TEXT", "LOCATION", "NAMESPACE"] := by
  cases v <;> simp [typeName]

/-- On the tags of the header the comparison without regard to case is equality with the
tag that `typeName` gives. -/
theorem sqfStringEq_typeName (v : Value) :
    ∀ tag ∈ ["ARRAY", "BOOL", "CODE", "CONFIG", "CONTROL", "DISPLAY", "GROUP", "OBJECT", "SCALAR", "SCRIPT", "SIDE", "STRING", "TEXT", "LOCATION"],
      sqfStringEq (typeName v) tag = decide (typeName v = tag) := by
  have hmem := typeName_mem v
  generalize typeName v = t at hmem ⊢
  revert t
  decide

/-- C6: for a value `v` (the value of the argument), each of the fourteen base checks
`IS_T` evaluates to `true` exactly when `typeName v` is the tag `"T"`, so at most one of
the fourteen is true of `v`; `IS_BOOLEAN`, `IS_FUNCTION` and `IS_NUMBER` evaluate to the
same result as `IS_BOOL`, `IS_CODE` and `IS_SCALAR`. -/
theorem type_checks_by_tag (h : Host) (σ : State) (VAR : Arg) (v : Value)
    (hv : eval h σ VAR.expr = some v) :
    (eval h σ (IS_ARRAY VAR) = some (.bool (decide (typeName v = "ARRAY"))) ∧
    eval h σ (IS_BOOL VAR) = some (.bool (decide (typeName v = "BOOL"))) ∧
    eval h σ (IS_CODE VAR) = some (.bool (decide (typeName v = "CODE"))) ∧
    eval h σ (IS_CONFIG VAR) = some (.bool (decide (typeName v = "CONFIG"))) ∧
    eval h σ (IS_CONTROL VAR) = some (.bool (decide (typeName v = "CONTROL"))) ∧
    eval h σ (IS_DISPLAY VAR) = some (.bool (decide (typeName v = "DISPLAY"))) ∧
    eval h σ (IS_GROUP VAR) = some (.bool (decide (typeName v = "GROUP"))) ∧
    eval h σ (IS_OBJECT VAR) = some (.bool (decide (typeName v = "OBJECT"))) ∧
    eval h σ (IS_SCALAR VAR) = some (.bool (decide (typeName v = "SCALAR"))) ∧
    eval h σ (IS_SCRIPT VAR) = some (.bool (decide (typeName v = "SCRIPT"))) ∧
    eval h σ (IS_SIDE VAR) = some (.bool (decide (typeName v = "SIDE"))) ∧
    eval h σ (IS_STRING VAR) = some (.bool (decide (typeName v = "STRING"))) ∧
    eval h σ (IS_TEXT VAR) = some (.bool (decide (typeName v = "TEXT"))) ∧
    eval h σ (IS_LOCATION VAR) = some (.bool (decide (typeName v = "LOCATION")))) ∧
    (baseChecks.countP fun p => holds (eval h σ (p.2 VAR))) ≤ 1 ∧
    eval h σ (IS_BOOLEAN VAR) = eval h σ (IS_BOOL VAR) ∧
    eval h σ (IS_FUNCTION VAR) = eval h σ (IS_CODE VAR) ∧
    eval h σ (IS_NUMBER VAR) = eval h σ (IS_SCALAR VAR) := by
  have key : ∀ tag ∈ ["ARRAY", "BOOL", "CODE", "CONFIG", "CONTROL", "DISPLAY", "GROUP", "OBJECT", "SCALAR", "SCRIPT", "SIDE", "STRING", "TEXT", "LOCATION"],
      eval h σ (.eq (.typeName VAR.expr) (.lit (.string tag)))
        = some (.bool (decide (typeName v = tag))) := by
    intro tag htag
    rw [eval_typeCheck h σ VAR.expr v tag hv, sqfStringEq_typeName v tag htag]
  simp only [List.forall_mem_cons, List.not_mem_nil, false_imp_iff, implies_true,
    and_true] at key
  obtain ⟨k1, k2, k3, k4, k5, k6, k7, k8, k9, k10, k11, k12, k13, k14⟩ := key
  refine ⟨⟨k1, k2, k3, k4, k5, k6, k7, k8, k9, k10, k11, k12, k13, k14⟩, ?_, rfl, rfl, rfl⟩
  simp only [baseChecks, IS_ARRAY, IS_BOOL, IS_CODE, IS_CONFIG, IS_CONTROL, IS_DISPLAY, IS_GROUP, IS_OBJECT, IS_SCALAR, IS_SCRIPT, IS_SIDE, IS_STRING, IS_TEXT, IS_LOCATION, List.countP_cons,
    List.countP_nil, k1, k2, k3, k4, k5, k6, k7, k8, k9, k10, k11, k12, k13, k14]
  clear k1 k2 k3 k4 k5 k6 k7 k8 k9 k10 k11 k12 k13 k14 hv
  have hmem := typeName_mem v
  generalize typeName v = t at hmem ⊢
  revert t
  decide

/-- C6 at a concrete input: the argument `_this` in the sample state, an array. -/
theorem type_checks_by_tag_witness :
    eval plainHost sampleState thisArg.expr = some (.array [.scalar 10, .scalar 20,
      .scalar 30, .scalar 40, .scalar 50, .scalar 60, .scalar 70, .scalar 80]) ∧
    (baseChecks.countP fun p => holds (eval plainHost sampleState (p.2 thisArg))) ≤ 1 :=
  ⟨rfl, (type_checks_by_tag plainHost sampleState thisArg _ rfl).2.1⟩

/-! ## The manifest -/

/-- C7: the classes registered under `CBA`/`Hashes` are the eight named ones, with pairwise
distinct names; each has exactly one `file` entry, which is an `.sqf` file in
`\x\cba_a3\addons\hashes\`; every name is mapped to the file of its class, and distinct
names are mapped to distinct files. -/
theorem hashes_manifest_is_a_mapping :
    (registered "CBA" "Hashes").map (fun c => c.name) =
      ["hashCreate", "hashEachPair", "hashGet", "hashHasKey", "hashRem", "hashSet", "isHash",
        "testHash"] ∧
    ((registered "CBA" "Hashes").map fun c => c.name).Nodup ∧
    (∀ c ∈ registered "CBA" "Hashes",
      c.files.length = 1 ∧ (∀ f ∈ c.files, isFileIn hashesDir ".sqf" f = true) ∧
      fileOf (registered "CBA" "Hashes") c.name = c.files.head?) ∧
    ((registered "CBA" "Hashes").map fun c => fileOf (registered "CBA" "Hashes") c.name).Nodup
    := by
  decide

/-! ## Splitting arrays -/

/-- The flat form declares nothing private. -/
theorem privateDecls_flatExplode (ARRAY : Arg) (names : List String) :
    ∀ i : Nat, (flatExplode ARRAY names i).privateDecls = [] := by
  induction names with
  | nil => intro i; rfl
  | cons V rest ih =>
    intro i
    cases rest with
    | nil => rfl
    | cons W Vs =>
      rw [flatExplode, Stmt.privateDecls, ih (i + 1)]
      rfl

/-- `THIS_FILE_` evaluates to a string in every state. -/
theorem eval_THIS_FILE_ (h : Host) (σ : State) (s : Site) :
    eval h σ (THIS_FILE_ s) = some (.string (s.THIS_FILE.getD s.FILE)) := by
  cases hs : s.THIS_FILE <;> simp [THIS_FILE_, hs, eval]

/-- The call that `ASSERTION_ERROR` expands to, run where its message is the string `t`. -/
theorem exec_ASSERTION_ERROR (h : Host) (σ : State) (s : Site) (MESSAGE : Arg) (t : String)
    (hm : eval h σ MESSAGE.expr = some (.string t)) :
    exec h (ASSERTION_ERROR s MESSAGE) σ
      = some { σ with calls := σ.calls ++
          [assertionEvent (.string (s.THIS_FILE.getD s.FILE)) (.scalar s.LINE) t] } := by
  simp [ASSERTION_ERROR, ERROR_WITH_TITLE, exec, arr, eval, eval_THIS_FILE_, LINE_, hm,
    State.record, assertionEvent]

/-- A state is not itself with one more call. -/
theorem not_raisedAssertion_self (σ : State) (m : String) : ¬ RaisedAssertion σ σ m := by
  rintro ⟨file, line, text, _, heq⟩
  have hlen := congrArg (fun τ : State => τ.calls.length) heq
  simp at hlen

/-- C5: where `CONDITION` is a boolean `b` and `MESSAGE` a string `m`, both assertions run
without a script error; `ASSERT_TRUE(CONDITION,MESSAGE)` raises an error (a call of
`CBA_fnc_error` titled `Assertion failed!` whose text ends with `m`) if and only if `b` is
false, `ASSERT_FALSE(CONDITION,MESSAGE)` does if and only if `b` is true; so exactly one of
the two raises, and the one that does not leaves the state as it was. -/
theorem assertions_raise_iff (h : Host) (s : Site) (σ : State) (CONDITION MESSAGE : Arg)
    (b : Bool) (m : String) (hc : eval h σ CONDITION.expr = some (.bool b))
    (hm : eval h σ MESSAGE.expr = some (.string m)) :
    ∃ τT τF, exec h (ASSERT_TRUE s CONDITION MESSAGE) σ = some τT ∧
      exec h (ASSERT_FALSE s CONDITION MESSAGE) σ = some τF ∧
      (RaisedAssertion σ τT m ↔ b = false) ∧
      (RaisedAssertion σ τF m ↔ b = true) ∧
      ((RaisedAssertion σ τT m ∧ ¬ RaisedAssertion σ τF m) ∨
        (¬ RaisedAssertion σ τT m ∧ RaisedAssertion σ τF m)) ∧
      (¬ RaisedAssertion σ τT m → τT = σ) ∧
      (¬ RaisedAssertion σ τF m → τF = σ) := by
  have hraise : ∀ (text pre : String),
      ∃ τ, exec h (ASSERTION_ERROR s ⟨text, .add (.lit (.string pre)) MESSAGE.expr⟩) σ = some τ
        ∧ RaisedAssertion σ τ m := by
    intro text pre
    have hA : eval h σ (Expr.add (.lit (.string pre)) MESSAGE.expr)
        = some (.string (pre ++ m)) := by simp [eval, hm]
    refine ⟨_, exec_ASSERTION_ERROR h σ s ⟨text, _⟩ (pre ++ m) hA, _, _, pre ++ m, ?_, rfl⟩
    rw [String.data_append]
    exact List.suffix_append _ _
  cases b with
  | false =>
    obtain ⟨τ, hτ, hr⟩ := hraise
      ("\x27Assertion (" ++ CONDITION.text ++ ") failed!\\n\\n\x27 + (" ++ MESSAGE.text ++ ")")
      ("Assertion (" ++ CONDITION.text ++ ") failed!\\n\\n")
    have hnot : eval h σ (.not CONDITION.expr) = some (.bool true) := by simp [eval, hc]
    have hT : exec h (ASSERT_TRUE s CONDITION MESSAGE) σ = some τ := by
      rw [ASSERT_TRUE, exec, hnot]
      show exec h (.seq _ .skip) σ = some τ
      rw [exec, hτ]
      rfl
    have hF : exec h (ASSERT_FALSE s CONDITION MESSAGE) σ = some σ := by
      rw [ASSERT_FALSE, exec, hc]
    have hn := not_raisedAssertion_self σ m
    exact ⟨τ, σ, hT, hF, by simp [hr], by simp [hn], Or.inl ⟨hr, hn⟩,
      fun hnot => absurd hr hnot, fun _ => rfl⟩
  | true =>
    obtain ⟨τ, hτ, hr⟩ := hraise
      ("\x27Assertion (not (" ++ CONDITION.text ++ ")) failed!\\n\\n\x27 + (" ++ MESSAGE.text
        ++ ")")
      ("Assertion (not (" ++ CONDITION.text ++ ")) failed!\\n\\n")
    have hnot : eval h σ (.not CONDITION.expr) = some (.bool false) := by simp [eval, hc]
    have hT : exec h (ASSERT_TRUE s CONDITION MESSAGE) σ = some σ := by
      rw [ASSERT_TRUE, exec, hnot]
    have hF : exec h (ASSERT_FALSE s CONDITION MESSAGE) σ = some τ := by
      rw [ASSERT_FALSE, exec, hc]
      exact hτ
    have hn := not_raisedAssertion_self σ m
    exact ⟨σ, τ, hT, hF, by simp [hn], by simp [hr], Or.inr ⟨hn, hr⟩,
      fun _ => rfl, fun hnot => absurd hr hnot⟩

/-- C5 at a concrete input: the condition `_flag` (true) and the message `_msg`
(`"boom"`) in the sample state: `ASSERT_TRUE` changes nothing, `ASSERT_FALSE` records one
call of `CBA_fnc_error`. -/
theorem assertions_raise_iff_witness :
    eval plainHost sampleState (Expr.var "_flag") = some (.bool true) ∧
    eval plainHost sampleState (Expr.var "_msg") = some (.string "boom") ∧
    ∃ τT τF,
      exec plainHost (ASSERT_TRUE sampleSite ⟨"_flag", .var "_flag"⟩ ⟨"_msg", .var "_msg"⟩)
        sampleState = some τT ∧
      exec plainHost (ASSERT_FALSE sampleSite ⟨"_flag", .var "_flag"⟩ ⟨"_msg", .var "_msg"⟩)
        sampleState = some τF ∧
      ¬ RaisedAssertion sampleState τT "boom" ∧ RaisedAssertion sampleState τF "boom" := by
  refine ⟨rfl, rfl, ?_⟩
  obtain ⟨τT, τF, hT, hF, h1, h2, _⟩ :=
    assertions_raise_iff plainHost sampleSite sampleState ⟨"_flag", .var "_flag"⟩
      ⟨"_msg", .var "_msg"⟩ true "boom" rfl rfl
  exact ⟨τT, τF, hT, hF, fun hr => by simpa using h1.mp hr, h2.mpr rfl⟩

end CBA
